import Mathlib

/-!
Verification of the QueryBot conversation turn pipeline.

Shallow embedding of the client component (src/app/page.tsx, the Tutor
component: askGroq, speak, handleVoice, the transcript effects) and of the
completion relay route (src/unnamed/part_000, the POST handler), together
with theorems settling the spec claims about them.
-/

namespace QueryBot

/-- JavaScript string fallback x || d: null and undefined (modeled by none)
and the empty string are falsy. -/
def jsOrStr (o : Option String) (d : String) : String :=
  match o with
  | none => d
  | some s => if s = "" then d else s

/-- JavaScript numeric fallback x || d for a possibly missing count: 0 is
falsy. -/
def jsOrNat (o : Option Nat) (d : Nat) : Nat :=
  match o with
  | none => d
  | some n => if n = 0 then d else n

/-- Whitespace trimming, modeling the JavaScript trim calls of both source
files; written by structural recursion over the character list so that
concrete instances evaluate inside proofs. -/
def jsTrim (s : String) : String :=
  ⟨((s.data.dropWhile Char.isWhitespace).reverse.dropWhile
    Char.isWhitespace).reverse⟩

/-- Message role, user | assistant in both source files. -/
inductive Role where
  | user
  | assistant
  deriving DecidableEq, Repr

/-- The Message type of page.tsx: role, content, and an optional error flag
(an absent flag is modeled as false, matching its use in the view). -/
structure Message where
  role : Role
  content : String
  error : Bool := false
  deriving DecidableEq, Repr

/-- The ChatMessage interface of the relay route. -/
structure ChatMessage where
  role : Role
  content : String
  deriving DecidableEq, Repr

/-- A provider message inside a completion choice; its content may be
missing or null. -/
structure ProviderMessage where
  content : Option String
  deriving DecidableEq, Repr

/-- One completion choice; its message may be missing. -/
structure Choice where
  message : Option ProviderMessage
  deriving DecidableEq, Repr

/-- Provider usage metadata; the total may be unreported. -/
structure Usage where
  total_tokens : Option Nat
  deriving DecidableEq, Repr

/-- A provider completion as read by the relay: choice list, optional usage,
and the model identifier echoed back. -/
structure Completion where
  choices : List Choice
  usage : Option Usage
  model : String
  deriving DecidableEq, Repr

/-- A relay JSON response body together with its HTTP status. Option fields
model keys that may be absent from the JSON object; in particular the
missing-credential body carries no success key. -/
structure RelayResponse where
  status : Nat
  success : Option Bool
  content : Option String
  tokens_used : Option Nat
  model : Option String
  error : Option String
  details : Option String
  deriving DecidableEq, Repr

/-- The missing-credential response of the route: status 500, body with
error and details only. -/
def configErrorResponse : RelayResponse :=
  { status := 500, success := none, content := none, tokens_used := none,
    model := none, error := some "Server configuration error",
    details := some "API key not configured" }

/-- The catch-branch response of the route: status 502, body with
success false, the fixed error text, and the underlying message. -/
def failureResponse (m : String) : RelayResponse :=
  { status := 502, success := some false, content := none,
    tokens_used := none, model := none,
    error := some "AI processing failed", details := some m }

/-- The content chain on the success path:
completion.choices?.[0]?.message?.content, undefined at any missing hop. -/
def firstChoiceContent (c : Completion) : Option String :=
  (c.choices.head?.bind Choice.message).bind ProviderMessage.content

/-- The success response of the route: the first choice content with the
No response fallback, the usage total with the 0 fallback, and the echoed
model, at status 200. -/
def successResponse (c : Completion) : RelayResponse :=
  { status := 200, success := some true,
    content := some (jsOrStr (firstChoiceContent c) "No response"),
    tokens_used := some (jsOrNat (c.usage.bind Usage.total_tokens) 0),
    model := some c.model, error := none, details := none }

/-- The two ways the body of the try block can go before the provider call:
formData or JSON.parse throws, or the payload parses to a message list. -/
inductive TryInput where
  | parseError (msg : String)
  | parsed (messages : List ChatMessage)
  deriving Repr

/-- The POST handler of the relay route. apiKey models the environment
credential, already an Option; the provider argument stands for the
groq.chat.completions.create call, which either throws (network error,
timeout, non-success) or returns a completion. The second component counts
provider invocations. -/
def POST (apiKey : Option String) (body : TryInput)
    (provider : List ChatMessage → Except String Completion) :
    RelayResponse × Nat :=
  match apiKey with
  | none => (configErrorResponse, 0)
  | some key =>
    if jsTrim key = "" then (configErrorResponse, 0)
    else
      match body with
      | .parseError m => (failureResponse m, 0)
      | .parsed ms =>
        match provider ms with
        | .error e => (failureResponse e, 1)
        | .ok c => (successResponse c, 1)

/-- The resolved outcome of one fetch to the relay, as seen inside askGroq:
ok carries data.content (possibly null), fail carries the thrown error
message (network failure, non-ok response text, or data.error). -/
inductive TurnResult where
  | ok (content : Option String)
  | fail (msg : String)
  deriving DecidableEq, Repr

/-- Client state of the Tutor component. speaking is the utterance queue of
window.speechSynthesis; synthSupported models whether speechSynthesis
exists in window; an attached file is modeled by its name. -/
structure ControllerState where
  input : String
  uploadedImage : Option String
  messages : List Message
  isLoading : Bool
  isMounted : Bool
  transcript : String
  listening : Bool
  speaking : List String
  synthSupported : Bool
  deriving DecidableEq, Repr

/-- window.speechSynthesis.cancel: drop every queued utterance. -/
def synthCancel (s : ControllerState) : ControllerState :=
  { s with speaking := [] }

/-- window.speechSynthesis.speak: queue one more utterance. -/
def synthQueue (t : String) (s : ControllerState) : ControllerState :=
  { s with speaking := s.speaking ++ [t] }

/-- speak of page.tsx: return early unless mounted and speechSynthesis is
available, otherwise cancel whatever plays and queue the new utterance. -/
def speak (t : String) (s : ControllerState) : ControllerState :=
  if s.isMounted = false ∨ s.synthSupported = false then s
  else synthQueue t (synthCancel s)

/-- The user message askGroq builds from the current input. -/
def userMessage (content : String) : Message :=
  { role := .user, content := content, error := false }

/-- Synchronous part of askGroq up to the fetch: the guard rejecting an
empty trimmed input or an unmounted component and, when it passes,
setIsLoading true, the append of the user message, setInput to the empty
string, and the clearing of the image attachment while the form data is
assembled (the attachment ends up absent whether or not one was present).
Returns none when the guard rejects, leaving the state untouched. -/
def askGroqStart (s : ControllerState) : Option ControllerState :=
  if jsTrim s.input = "" ∨ s.isMounted = false then none
  else some { s with
    isLoading := true,
    messages := s.messages ++ [userMessage s.input],
    input := "",
    uploadedImage := none }

/-- Rest of askGroq once the fetch resolved: on success append the
assistant message, with the fallback content for a falsy data.content, and
speak it; on any caught error append the flagged error message and speak
the fixed apology; in both cases the loading flag ends false. -/
def askGroqFinish (r : TurnResult) (s : ControllerState) : ControllerState :=
  match r with
  | .ok c =>
    let content := jsOrStr c "I didn\x27t get a response"
    speak content { s with
      messages := s.messages ++
        [{ role := .assistant, content := content, error := false }],
      isLoading := false }
  | .fail m =>
    speak "Sorry, I encountered an error" { s with
      messages := s.messages ++
        [{ role := .assistant, content := "Error: " ++ m, error := true }],
      isLoading := false }

/-- One whole invocation of askGroq, with the turn resolving to r when the
guard lets it reach the fetch. -/
def askGroq (r : TurnResult) (s : ControllerState) : ControllerState :=
  match askGroqStart s with
  | none => s
  | some s₁ => askGroqFinish r s₁

/-- Number of fetches one askGroq invocation performs: 1 when the guard
passes, 0 when it rejects. -/
def askGroqFetches (s : ControllerState) : Nat :=
  if jsTrim s.input = "" ∨ s.isMounted = false then 0 else 1

/-- The effect mirroring the live transcript into the input while
listening. -/
def mirrorEffect (s : ControllerState) : ControllerState :=
  if s.listening = true then { s with input := s.transcript } else s

/-- The effect submitting once listening has stopped with a non-empty
trimmed transcript; it performs no in-flight check. -/
def voiceStopEffect (r : TurnResult) (s : ControllerState) : ControllerState :=
  if s.listening = false ∧ jsTrim s.transcript ≠ "" then askGroq r s else s

/-- Fetches performed by the voice-stop effect on state s. -/
def voiceStopFetches (s : ControllerState) : Nat :=
  if s.listening = false ∧ jsTrim s.transcript ≠ "" then askGroqFetches s else 0

/-- Run the two transcript-dependent effects in their declaration order. -/
def runEffects (r : TurnResult) (s : ControllerState) : ControllerState :=
  voiceStopEffect r (mirrorEffect s)

/-- The speech library delivering a new transcript value, followed by the
effects depending on it. -/
def transcriptUpdate (t : String) (r : TurnResult) (s : ControllerState) :
    ControllerState :=
  runEffects r { s with transcript := t }

/-- Recognition stopping (toggled off, or ending on its own): listening
flips to false and the effects run. -/
def stopListening (r : TurnResult) (s : ControllerState) : ControllerState :=
  runEffects r { s with listening := false }

/-- Fetches performed while handling a recognition stop on state s. -/
def stopListeningFetches (s : ControllerState) : Nat :=
  voiceStopFetches (mirrorEffect { s with listening := false })

/-- handleVoice start branch: start continuous recognition, then
resetTranscript. -/
def handleVoiceStart (s : ControllerState) : ControllerState :=
  { s with listening := true, transcript := "" }

/-- handleImageUpload with a selected file. -/
def handleImageUpload (f : String) (s : ControllerState) : ControllerState :=
  { s with uploadedImage := some f }

/-- The Ask QueryBot button: onClick askGroq, disabled while loading or
while the trimmed input is empty. -/
def buttonClick (r : TurnResult) (s : ControllerState) : ControllerState :=
  if s.isLoading = true ∨ jsTrim s.input = "" then s else askGroq r s

/-- Fetches performed by a button press on state s. -/
def buttonFetches (s : ControllerState) : Nat :=
  if s.isLoading = true ∨ jsTrim s.input = "" then 0 else askGroqFetches s

/-- Enter in the text input: the key handler checks the loading flag before
calling askGroq (and the input element is disabled while loading). -/
def enterKey (r : TurnResult) (s : ControllerState) : ControllerState :=
  if s.isLoading = true then s else askGroq r s

/-- Fetches performed by an Enter keypress on state s. -/
def enterFetches (s : ControllerState) : Nat :=
  if s.isLoading = true then 0 else askGroqFetches s

/-- Fresh component state at page load; whether speechSynthesis exists is
fixed by the environment. -/
def initState (synth : Bool) : ControllerState :=
  { input := "", uploadedImage := none, messages := [], isLoading := false,
    isMounted := false, transcript := "", listening := false, speaking := [],
    synthSupported := synth }

/-- One user or platform event together with the state updates and effects
it triggers. Guards mirror the disabled attributes in the view. -/
inductive Step : ControllerState → ControllerState → Prop where
  | mount (s : ControllerState) : Step s { s with isMounted := true }
  | typeInput (s : ControllerState) (t : String) :
      s.isLoading = false → Step s { s with input := t }
  | upload (s : ControllerState) (f : String) : Step s (handleImageUpload f s)
  | voiceOn (s : ControllerState) :
      s.isLoading = false → Step s (handleVoiceStart s)
  | transcriptUpd (s : ControllerState) (t : String) (r : TurnResult) :
      Step s (transcriptUpdate t r s)
  | recognitionEnd (s : ControllerState) (r : TurnResult) :
      Step s (stopListening r s)
  | button (s : ControllerState) (r : TurnResult) : Step s (buttonClick r s)
  | enter (s : ControllerState) (r : TurnResult) : Step s (enterKey r s)
  | speakText (s : ControllerState) (t : String) : Step s (speak t s)

/-- States reachable from a fresh page load. -/
inductive Reachable : ControllerState → Prop where
  | init (synth : Bool) : Reachable (initState synth)
  | step {s s₁ : ControllerState} : Reachable s → Step s s₁ → Reachable s₁

/-- A message never rendered as a user message in red: an error-flagged
message is an assistant one, and a user message is unflagged. -/
def goodMsg (m : Message) : Prop :=
  (m.error = true → m.role = .assistant) ∧ (m.role = .user → m.error = false)

/-- Every message of the transcript is well formed. -/
def messagesWF (l : List Message) : Prop := ∀ m ∈ l, goodMsg m

/-- Combined state invariant: transcript messages well formed and at most
one utterance queued. -/
def stateInv (s : ControllerState) : Prop :=
  messagesWF s.messages ∧ s.speaking.length ≤ 1

/-- The concrete provider response of the round-trip example. -/
def parisCompletion : Completion :=
  { choices := [{ message := some { content := some "Paris" } }],
    usage := some { total_tokens := some 12 }, model := "m1" }

/-- A provider response whose first choice carries a present but empty
message text. -/
def emptyTextCompletion : Completion :=
  { choices := [{ message := some { content := some "" } }],
    usage := none, model := "m1" }

/-- Refinement target following the spec words for the success content: the
first choice message text, with the placeholder only when the text is
absent. -/
def specFirstChoiceText (c : Completion) : String :=
  match firstChoiceContent c with
  | some s => s
  | none => "No response"

/-- Success shape of a Turn Result body. -/
def turnSuccessShape (r : RelayResponse) : Prop :=
  r.success = some true ∧ r.content.isSome = true ∧
  r.tokens_used.isSome = true ∧ r.model.isSome = true

/-- Failure shape of a Turn Result body. -/
def turnFailureShape (r : RelayResponse) : Prop :=
  r.success = some false ∧ r.error.isSome = true ∧ r.details.isSome = true

instance (r : RelayResponse) : Decidable (turnSuccessShape r) := by
  unfold turnSuccessShape; exact inferInstance

instance (r : RelayResponse) : Decidable (turnFailureShape r) := by
  unfold turnFailureShape; exact inferInstance

/-- A mounted idle state with typed input, for instantiating turn
theorems. -/
def c1s : ControllerState :=
  { input := "hello", uploadedImage := none, messages := [],
    isLoading := false, isMounted := true, transcript := "",
    listening := false, speaking := [], synthSupported := true }

/-- A state with a turn in flight while voice capture is still running. -/
def c2cs : ControllerState :=
  { input := "hi", uploadedImage := none, messages := [], isLoading := true,
    isMounted := true, transcript := "hi", listening := true, speaking := [],
    synthSupported := true }

/-- A state with a turn in flight and pending typed input. -/
def c2ws : ControllerState :=
  { input := "x", uploadedImage := none, messages := [], isLoading := true,
    isMounted := true, transcript := "", listening := false, speaking := [],
    synthSupported := true }

/-- A mounted idle state with voice capture running. -/
def c7s : ControllerState :=
  { input := "", uploadedImage := none, messages := [], isLoading := false,
    isMounted := true, transcript := "", listening := true, speaking := [],
    synthSupported := true }

/-- A mounted idle state with pending input and a pending attachment. -/
def c8s : ControllerState :=
  { input := " question ", uploadedImage := some "diagram.png",
    messages := [], isLoading := false, isMounted := true, transcript := "",
    listening := false, speaking := [], synthSupported := true }

/-- The state askGroqStart yields on c8s. -/
def c8s1 : ControllerState :=
  { input := "", uploadedImage := none,
    messages := [userMessage " question "], isLoading := true,
    isMounted := true, transcript := "", listening := false, speaking := [],
    synthSupported := true }

/-- A mounted state with an utterance already playing. -/
def c9s : ControllerState :=
  { input := "", uploadedImage := none, messages := [], isLoading := false,
    isMounted := true, transcript := "", listening := false,
    speaking := ["previous answer"], synthSupported := true }

/-- A mounted fresh state with typed input. -/
def c10base : ControllerState :=
  { initState true with isMounted := true, input := "hi" }

/-- The state after one successful button-submitted turn on c10base. -/
def c10s : ControllerState := buttonClick (.ok (some "yo")) c10base

theorem messagesWF_append {l : List Message} {m : Message}
    (hl : messagesWF l) (hm : goodMsg m) : messagesWF (l ++ [m]) := by
  intro x hx
  rcases List.mem_append.mp hx with h | h
  · exact hl x h
  · rcases List.mem_singleton.mp h with rfl
    exact hm

theorem speak_cases (t : String) (s : ControllerState) :
    speak t s = s ∨ speak t s = { s with speaking := [t] } := by
  unfold speak synthQueue synthCancel
  split
  · exact Or.inl rfl
  · exact Or.inr (by simp)

theorem speak_messages (t : String) (s : ControllerState) :
    (speak t s).messages = s.messages := by
  rcases speak_cases t s with h | h <;> rw [h]

theorem speak_input (t : String) (s : ControllerState) :
    (speak t s).input = s.input := by
  rcases speak_cases t s with h | h <;> rw [h]

theorem speak_uploadedImage (t : String) (s : ControllerState) :
    (speak t s).uploadedImage = s.uploadedImage := by
  rcases speak_cases t s with h | h <;> rw [h]

theorem speak_isLoading (t : String) (s : ControllerState) :
    (speak t s).isLoading = s.isLoading := by
  rcases speak_cases t s with h | h <;> rw [h]

theorem speak_inv {s : ControllerState} (t : String) (h : stateInv s) :
    stateInv (speak t s) := by
  rcases speak_cases t s with h1 | h1 <;> rw [h1]
  · exact h
  · exact ⟨h.1, by simp⟩

/-- Shape of the state askGroqStart returns when the guard passes. -/
theorem askGroqStart_fields {s s₁ : ControllerState}
    (h : askGroqStart s = some s₁) :
    s₁.messages = s.messages ++ [userMessage s.input] ∧ s₁.input = "" ∧
    s₁.uploadedImage = none ∧ s₁.isLoading = true ∧
    s₁.isMounted = s.isMounted ∧ s₁.speaking = s.speaking := by
  unfold askGroqStart at h
  split at h
  · simp at h
  · injection h with h
    subst h
    exact ⟨rfl, rfl, rfl, rfl, rfl, rfl⟩

theorem askGroqStart_eq {s : ControllerState}
    (h1 : jsTrim s.input ≠ "") (h2 : s.isMounted = true) :
    askGroqStart s = some { s with
      isLoading := true,
      messages := s.messages ++ [userMessage s.input],
      input := "",
      uploadedImage := none } := by
  unfold askGroqStart
  rw [if_neg (by simp [h1, h2])]

theorem askGroqFinish_messages (r : TurnResult) (s : ControllerState) :
    ∃ a : Message, a.role = .assistant ∧
      (askGroqFinish r s).messages = s.messages ++ [a] := by
  cases r with
  | ok c =>
    refine ⟨{ role := .assistant, content := jsOrStr c "I didn\x27t get a response", error := false }, rfl, ?_⟩
    show (speak _ _).messages = _
    rw [speak_messages]
  | fail m =>
    refine ⟨{ role := .assistant, content := "Error: " ++ m, error := true }, rfl, ?_⟩
    show (speak _ _).messages = _
    rw [speak_messages]

theorem askGroqFinish_ok_messages (c : Option String) (s : ControllerState) :
    (askGroqFinish (.ok c) s).messages = s.messages ++
      [{ role := .assistant,
         content := jsOrStr c "I didn\x27t get a response",
         error := false }] := by
  show (speak _ _).messages = _
  rw [speak_messages]

theorem askGroqFinish_input (r : TurnResult) (s : ControllerState) :
    (askGroqFinish r s).input = s.input := by
  cases r with
  | ok c => show (speak _ _).input = _; rw [speak_input]
  | fail m => show (speak _ _).input = _; rw [speak_input]

theorem askGroqFinish_uploadedImage (r : TurnResult) (s : ControllerState) :
    (askGroqFinish r s).uploadedImage = s.uploadedImage := by
  cases r with
  | ok c => show (speak _ _).uploadedImage = _; rw [speak_uploadedImage]
  | fail m => show (speak _ _).uploadedImage = _; rw [speak_uploadedImage]

theorem askGroqFinish_isLoading (r : TurnResult) (s : ControllerState) :
    (askGroqFinish r s).isLoading = false := by
  cases r with
  | ok c => show (speak _ _).isLoading = _; rw [speak_isLoading]
  | fail m => show (speak _ _).isLoading = _; rw [speak_isLoading]

theorem askGroqFinish_inv (r : TurnResult) {s : ControllerState}
    (hi : stateInv s) : stateInv (askGroqFinish r s) := by
  cases r with
  | ok c =>
    exact speak_inv _ ⟨messagesWF_append hi.1 (by simp [goodMsg]), hi.2⟩
  | fail m =>
    exact speak_inv _ ⟨messagesWF_append hi.1 (by simp [goodMsg]), hi.2⟩

theorem askGroqStart_inv {s s₁ : ControllerState}
    (h : askGroqStart s = some s₁) (hi : stateInv s) : stateInv s₁ := by
  obtain ⟨hm, -, -, -, -, hs⟩ := askGroqStart_fields h
  constructor
  · rw [hm]
    exact messagesWF_append hi.1 (by simp [goodMsg, userMessage])
  · rw [hs]
    exact hi.2

theorem askGroq_inv (r : TurnResult) {s : ControllerState}
    (hi : stateInv s) : stateInv (askGroq r s) := by
  unfold askGroq
  split
  · exact hi
  · next s₁ h => exact askGroqFinish_inv r (askGroqStart_inv h hi)

theorem askGroq_extend (r : TurnResult) (s : ControllerState) :
    ∃ tl, (askGroq r s).messages = s.messages ++ tl := by
  unfold askGroq
  split
  · exact ⟨[], by simp⟩
  · next s₁ h =>
    obtain ⟨a, -, ha⟩ := askGroqFinish_messages r s₁
    obtain ⟨hm, -⟩ := askGroqStart_fields h
    exact ⟨[userMessage s.input, a], by rw [ha, hm, List.append_assoc]; rfl⟩

theorem mirrorEffect_cases (s : ControllerState) :
    mirrorEffect s = s ∨ mirrorEffect s = { s with input := s.transcript } := by
  unfold mirrorEffect
  split
  · exact Or.inr rfl
  · exact Or.inl rfl

theorem mirrorEffect_messages (s : ControllerState) :
    (mirrorEffect s).messages = s.messages := by
  rcases mirrorEffect_cases s with h | h <;> rw [h]

theorem mirrorEffect_inv {s : ControllerState} (h : stateInv s) :
    stateInv (mirrorEffect s) := by
  rcases mirrorEffect_cases s with h1 | h1 <;> rw [h1] <;> exact h

theorem voiceStopEffect_inv (r : TurnResult) {s : ControllerState}
    (h : stateInv s) : stateInv (voiceStopEffect r s) := by
  unfold voiceStopEffect
  split
  · exact askGroq_inv r h
  · exact h

theorem voiceStopEffect_extend (r : TurnResult) (s : ControllerState) :
    ∃ tl, (voiceStopEffect r s).messages = s.messages ++ tl := by
  unfold voiceStopEffect
  split
  · exact askGroq_extend r s
  · exact ⟨[], by simp⟩

theorem runEffects_inv (r : TurnResult) {s : ControllerState}
    (h : stateInv s) : stateInv (runEffects r s) :=
  voiceStopEffect_inv r (mirrorEffect_inv h)

theorem runEffects_extend (r : TurnResult) (s : ControllerState) :
    ∃ tl, (runEffects r s).messages = s.messages ++ tl := by
  obtain ⟨tl, h⟩ := voiceStopEffect_extend r (mirrorEffect s)
  exact ⟨tl, by rw [runEffects, h, mirrorEffect_messages]⟩

theorem buttonClick_inv (r : TurnResult) {s : ControllerState}
    (h : stateInv s) : stateInv (buttonClick r s) := by
  unfold buttonClick
  split
  · exact h
  · exact askGroq_inv r h

theorem enterKey_inv (r : TurnResult) {s : ControllerState}
    (h : stateInv s) : stateInv (enterKey r s) := by
  unfold enterKey
  split
  · exact h
  · exact askGroq_inv r h

/-- Every event preserves the invariant. -/
theorem inv_step {s s₁ : ControllerState} (st : Step s s₁)
    (h : stateInv s) : stateInv s₁ := by
  cases st with
  | mount => exact h
  | typeInput t _ => exact h
  | upload f => exact h
  | voiceOn _ => exact h
  | transcriptUpd t r => exact runEffects_inv r h
  | recognitionEnd r => exact runEffects_inv r h
  | button r => exact buttonClick_inv r h
  | enter r => exact enterKey_inv r h
  | speakText t => exact speak_inv t h

/-- Every reachable state satisfies the invariant. -/
theorem inv_reachable {s : ControllerState} (h : Reachable s) : stateInv s := by
  induction h with
  | init synth => exact ⟨by intro m hm; simp [initState] at hm, by simp [initState]⟩
  | step _ st ih => exact inv_step st ih

/-- Every event only ever appends to the transcript. -/
theorem step_extend {s s₁ : ControllerState} (st : Step s s₁) :
    ∃ tl, s₁.messages = s.messages ++ tl := by
  cases st with
  | mount => exact ⟨[], by simp⟩
  | typeInput t _ => exact ⟨[], by simp⟩
  | upload f => exact ⟨[], by simp [handleImageUpload]⟩
  | voiceOn _ => exact ⟨[], by simp [handleVoiceStart]⟩
  | transcriptUpd t r =>
    obtain ⟨tl, h⟩ := runEffects_extend r { s with transcript := t }
    exact ⟨tl, h⟩
  | recognitionEnd r =>
    obtain ⟨tl, h⟩ := runEffects_extend r { s with listening := false }
    exact ⟨tl, h⟩
  | button r =>
    unfold buttonClick
    split
    · exact ⟨[], by simp⟩
    · exact askGroq_extend r s
  | enter r =>
    unfold enterKey
    split
    · exact ⟨[], by simp⟩
    · exact askGroq_extend r s
  | speakText t => exact ⟨[], by rw [speak_messages]; simp⟩

/-- Unfolding of the handler once a credential value is present. -/
theorem POST_some (k : String) (body : TryInput)
    (provider : List ChatMessage → Except String Completion) :
    POST (some k) body provider =
      if jsTrim k = "" then (configErrorResponse, 0)
      else
        match body with
        | .parseError m => (failureResponse m, 0)
        | .parsed ms =>
          match provider ms with
          | .error e => (failureResponse e, 1)
          | .ok c => (successResponse c, 1) := rfl

/-- Claim C3 counterexample: a completion whose first choice message text is
present but empty is mapped to the placeholder, not to that text, because
the JS fallback treats the empty string as falsy; so the response content
differs from the spec reading (text, or placeholder only when absent). -/
theorem C3_counterexample :
    specFirstChoiceText emptyTextCompletion = "" ∧
    (POST (some "k") (.parsed []) (fun _ => .ok emptyTextCompletion)).1.content
      = some "No response" ∧
    (POST (some "k") (.parsed []) (fun _ => .ok emptyTextCompletion)).1.content
      ≠ some (specFirstChoiceText emptyTextCompletion) := by
  refine ⟨rfl, rfl, ?_⟩
  decide

/-- Claim C3 (amended): for every provider completion received without
throwing, the relay response is success true with content the first choice
message text when present and non-empty, and the placeholder when absent or
empty; tokens_used the reported usage total, else 0; model the identifier
echoed by the provider; and the concrete Paris response maps exactly to
success true, content Paris, tokens_used 12, model m1. -/
theorem C3_success_mapping (k : String) (ms : List ChatMessage)
    (c : Completion) (provider : List ChatMessage → Except String Completion)
    (hk : jsTrim k ≠ "") (hp : provider ms = .ok c) :
    (POST (some k) (.parsed ms) provider).1 =
      { status := 200, success := some true,
        content := some (match firstChoiceContent c with
          | some s => if s = "" then "No response" else s
          | none => "No response"),
        tokens_used := some ((c.usage.bind Usage.total_tokens).getD 0),
        model := some c.model, error := none, details := none } ∧
    (POST (some "key") (.parsed []) (fun _ => .ok parisCompletion)).1 =
      { status := 200, success := some true, content := some "Paris",
        tokens_used := some 12, model := some "m1",
        error := none, details := none } := by
  constructor
  · rw [POST_some, if_neg hk]
    simp only [hp]
    show successResponse c = _
    unfold successResponse jsOrStr jsOrNat
    cases hc : firstChoiceContent c with
    | none => cases hu : c.usage.bind Usage.total_tokens with
      | none => rfl
      | some n => cases n <;> rfl
    | some str => cases hu : c.usage.bind Usage.total_tokens with
      | none => rfl
      | some n => cases n <;> rfl
  · rfl

theorem C3_success_mapping_witness :
    jsTrim "key" ≠ "" ∧
    (POST (some "key") (.parsed []) (fun _ => .ok parisCompletion)).1 =
      { status := 200, success := some true, content := some "Paris",
        tokens_used := some 12, model := some "m1",
        error := none, details := none } :=
  ⟨by decide,
    (C3_success_mapping "key" [] parisCompletion
      (fun _ => .ok parisCompletion) (by decide) rfl).2⟩

/-- Claim C4 counterexample: the configuration-error body carries no
success field at all, so it is neither of the two Turn Result shapes. -/
theorem C4_counterexample :
    (POST none (.parsed []) (fun _ => .error "e")).1 = configErrorResponse ∧
    ¬ turnSuccessShape configErrorResponse ∧
    ¬ turnFailureShape configErrorResponse ∧
    configErrorResponse.success = none := by
  refine ⟨rfl, ?_, ?_, rfl⟩ <;> decide

/-- Claim C4 (amended): every relay response body is either the success
Turn Result shape, the failure Turn Result shape, or the configuration-error
body, which carries an error text and a details text but no success field. -/
theorem C4_response_shapes (key : Option String) (body : TryInput)
    (provider : List ChatMessage → Except String Completion) :
    turnSuccessShape (POST key body provider).1 ∨
    turnFailureShape (POST key body provider).1 ∨
    ((POST key body provider).1 = configErrorResponse ∧
      configErrorResponse.success = none ∧
      configErrorResponse.error = some "Server configuration error" ∧
      configErrorResponse.details = some "API key not configured") := by
  match key with
  | none => exact Or.inr (Or.inr ⟨rfl, rfl, rfl, rfl⟩)
  | some k =>
    rw [POST_some]
    by_cases hk : jsTrim k = ""
    · rw [if_pos hk]
      exact Or.inr (Or.inr ⟨rfl, rfl, rfl, rfl⟩)
    · rw [if_neg hk]
      cases body with
      | parseError m =>
        exact Or.inr (Or.inl (by simp [turnFailureShape, failureResponse]))
      | parsed ms =>
        rcases hq : provider ms with e | c
        · exact Or.inr (Or.inl (by simp [hq, turnFailureShape, failureResponse]))
        · exact Or.inl (by simp [hq, turnSuccessShape, successResponse])

/-- Claim C5: with the credential absent from the environment the relay
performs zero provider invocations and answers the configuration-error
result at status 500, distinct from the 502 used for provider-call
failures. -/
theorem C5_missing_credential (body : TryInput)
    (provider : List ChatMessage → Except String Completion) :
    (POST none body provider).2 = 0 ∧
    (POST none body provider).1 = configErrorResponse ∧
    configErrorResponse.status = 500 ∧
    (∀ m, (failureResponse m).status = 502) ∧
    configErrorResponse.status ≠ (failureResponse "").status :=
  ⟨rfl, rfl, rfl, fun _ => rfl, by decide⟩

/-- Claim C6: with a configured credential, every failure inside the
handler, a payload that fails to parse as much as a throwing provider call,
is answered with status 502 and the body success false, the fixed error
text, and the underlying message; the two failure kinds are not told
apart. -/
theorem C6_configured_failures (k m e : String) (ms : List ChatMessage)
    (provider : List ChatMessage → Except String Completion)
    (hk : jsTrim k ≠ "") (hp : provider ms = .error e) :
    (POST (some k) (.parseError m) provider).1 = failureResponse m ∧
    (POST (some k) (.parsed ms) provider).1 = failureResponse e ∧
    (failureResponse m).status = 502 ∧
    (failureResponse m).success = some false ∧
    (failureResponse m).error = some "AI processing failed" ∧
    (failureResponse m).details = some m := by
  refine ⟨?_, ?_, rfl, rfl, rfl, rfl⟩
  · rw [POST_some, if_neg hk]
  · rw [POST_some, if_neg hk]
    simp only [hp]

theorem C6_configured_failures_witness :
    jsTrim "key" ≠ "" ∧
    (POST (some "key") (.parseError "bad json")
      (fun _ => Except.error "timeout")).1 = failureResponse "bad json" ∧
    (POST (some "key") (.parsed [])
      (fun _ => Except.error "timeout")).1 = failureResponse "timeout" :=
  ⟨by decide,
    (C6_configured_failures "key" "bad json" "timeout" []
      (fun _ => Except.error "timeout") (by decide) rfl).1,
    (C6_configured_failures "key" "bad json" "timeout" []
      (fun _ => Except.error "timeout") (by decide) rfl).2.1⟩

theorem mirrorEffect_on (s : ControllerState) (h : s.listening = true) :
    mirrorEffect s = { s with input := s.transcript } := by
  unfold mirrorEffect
  rw [if_pos h]

theorem mirrorEffect_off (s : ControllerState) (h : s.listening = false) :
    mirrorEffect s = s := by
  unfold mirrorEffect
  rw [if_neg (by simp [h])]

theorem voiceStopEffect_skip (s : ControllerState) (h : s.listening = true)
    (r : TurnResult) : voiceStopEffect r s = s := by
  unfold voiceStopEffect
  rw [if_neg (by simp [h])]

theorem voiceStopEffect_submit (s : ControllerState)
    (h1 : s.listening = false) (h2 : jsTrim s.transcript ≠ "")
    (r : TurnResult) : voiceStopEffect r s = askGroq r s := by
  unfold voiceStopEffect
  rw [if_pos ⟨h1, h2⟩]

theorem askGroq_accepted (s : ControllerState) (h1 : jsTrim s.input ≠ "")
    (h2 : s.isMounted = true) (r : TurnResult) :
    askGroq r s = askGroqFinish r { s with
      isLoading := true,
      messages := s.messages ++ [userMessage s.input],
      input := "",
      uploadedImage := none } := by
  unfold askGroq
  rw [askGroqStart_eq h1 h2]

/-- Claim C1: an accepted turn (non-empty trimmed input on a mounted page)
appends exactly the one user message before the fetch runs, and once the
fetch resolves exactly one assistant message, on the success path as on the
failure path, so the transcript grows by exactly two; moreover no event of
the component ever removes transcript entries. -/
theorem C1_turn_appends_two (s : ControllerState)
    (h1 : jsTrim s.input ≠ "") (h2 : s.isMounted = true) :
    ∃ s₁, askGroqStart s = some s₁ ∧
      s₁.messages = s.messages ++ [userMessage s.input] ∧
      (∀ r, ∃ a : Message, a.role = .assistant ∧
        (askGroqFinish r s₁).messages
          = s.messages ++ [userMessage s.input, a] ∧
        (askGroqFinish r s₁).messages.length = s.messages.length + 2) ∧
      (∀ s₂ s₃, Step s₂ s₃ → ∃ tl, s₃.messages = s₂.messages ++ tl) := by
  refine ⟨_, askGroqStart_eq h1 h2, rfl, ?_, fun s₂ s₃ st => step_extend st⟩
  intro r
  obtain ⟨a, ha1, ha2⟩ := askGroqFinish_messages r _
  refine ⟨a, ha1, ?_, ?_⟩
  · rw [ha2]
    simp
  · rw [ha2]
    simp

theorem C1_turn_appends_two_witness :
    jsTrim c1s.input ≠ "" ∧ c1s.isMounted = true ∧
    ∃ s₁, askGroqStart c1s = some s₁ ∧
      ∀ r, (askGroqFinish r s₁).messages.length
        = c1s.messages.length + 2 := by
  refine ⟨by decide, rfl, ?_⟩
  obtain ⟨s₁, hs, -, h3, -⟩ := C1_turn_appends_two c1s (by decide) rfl
  refine ⟨s₁, hs, fun r => ?_⟩
  obtain ⟨a, -, -, hl⟩ := h3 r
  exact hl

/-- Claim C2 counterexample: with a turn already in flight (the loading
flag true) the voice-capture stop path still submits: the transcript gains
two messages and a fetch runs, because neither the stop effect nor askGroq
itself consults the flag. -/
theorem C2_counterexample :
    c2cs.isLoading = true ∧
    (stopListening (.ok (some "ans")) c2cs).messages.length
      = c2cs.messages.length + 2 ∧
    stopListeningFetches c2cs = 1 := by
  decide

/-- Claim C2 (amended): the submit button and the Enter key are guarded, so
with the in-flight flag set those two paths change no state and fetch
nothing, and every accepted turn holds the flag from submission until the
fetch resolves; but the voice-capture stop path invokes askGroq without
consulting the flag, and askGroq performs no in-flight check of its own, so
that path can start a turn while one is in flight. -/
theorem C2_guard_paths (s : ControllerState) (r : TurnResult)
    (h : s.isLoading = true) :
    buttonClick r s = s ∧ buttonFetches s = 0 ∧
    enterKey r s = s ∧ enterFetches s = 0 ∧
    (∀ s₂ s₃, askGroqStart s₂ = some s₃ → s₃.isLoading = true ∧
      ∀ r₂, (askGroqFinish r₂ s₃).isLoading = false) := by
  refine ⟨?_, ?_, ?_, ?_, ?_⟩
  · unfold buttonClick
    rw [if_pos (Or.inl h)]
  · unfold buttonFetches
    rw [if_pos (Or.inl h)]
  · unfold enterKey
    rw [if_pos h]
  · unfold enterFetches
    rw [if_pos h]
  · intro s₂ s₃ hs
    obtain ⟨-, -, -, h4, -, -⟩ := askGroqStart_fields hs
    exact ⟨h4, fun r₂ => askGroqFinish_isLoading r₂ s₃⟩

theorem C2_guard_paths_witness :
    c2ws.isLoading = true ∧ buttonClick (.fail "e") c2ws = c2ws ∧
    enterKey (.fail "e") c2ws = c2ws ∧ buttonFetches c2ws = 0 ∧
    enterFetches c2ws = 0 := by
  have h := C2_guard_paths c2ws (.fail "e") rfl
  exact ⟨rfl, h.1, h.2.2.1, h.2.1, h.2.2.2.1⟩

/-- Claim C7: while listening, a delivered transcript is mirrored into the
pending input, and stopping capture with that non-empty transcript submits
exactly one turn whose user message content is exactly the transcript. -/
theorem C7_voice_stop_submits (s : ControllerState) (t : String)
    (r r₀ : TurnResult) (hl : s.listening = true) (hm : s.isMounted = true)
    (ht : jsTrim t ≠ "") :
    ∃ a : Message, a.role = .assistant ∧
      (stopListening r (transcriptUpdate t r₀ s)).messages
        = s.messages ++ [userMessage t, a] := by
  cases r with
  | ok c =>
    refine ⟨{ role := .assistant, content := jsOrStr c "I didn\x27t get a response", error := false }, rfl, ?_⟩
    simp [stopListening, transcriptUpdate, runEffects, mirrorEffect,
      voiceStopEffect, askGroq, askGroqStart, askGroqFinish, speak,
      synthQueue, synthCancel, userMessage, hl, hm, ht, apply_ite]
  | fail m =>
    refine ⟨{ role := .assistant, content := "Error: " ++ m, error := true }, rfl, ?_⟩
    simp [stopListening, transcriptUpdate, runEffects, mirrorEffect,
      voiceStopEffect, askGroq, askGroqStart, askGroqFinish, speak,
      synthQueue, synthCancel, userMessage, hl, hm, ht, apply_ite]

theorem C7_voice_stop_submits_witness :
    c7s.listening = true ∧ c7s.isMounted = true ∧
    jsTrim "what is 2 plus 2" ≠ "" ∧
    ∃ a : Message, a.role = .assistant ∧
      (stopListening (.ok (some "4"))
        (transcriptUpdate "what is 2 plus 2" (.fail "x") c7s)).messages
        = c7s.messages ++ [userMessage "what is 2 plus 2", a] :=
  ⟨rfl, rfl, by decide,
    C7_voice_stop_submits c7s "what is 2 plus 2" (.ok (some "4"))
      (.fail "x") rfl rfl (by decide)⟩

/-- Claim C8: once a turn is submitted the pending input is empty and the
pending attachment absent, already before the fetch and still after it
resolves, on the success path as on the failure path. -/
theorem C8_clears_pending (s s₁ : ControllerState) (r : TurnResult)
    (h : askGroqStart s = some s₁) :
    s₁.input = "" ∧ s₁.uploadedImage = none ∧
    (askGroqFinish r s₁).input = "" ∧
    (askGroqFinish r s₁).uploadedImage = none := by
  obtain ⟨-, h2, h3, -, -, -⟩ := askGroqStart_fields h
  refine ⟨h2, h3, ?_, ?_⟩
  · rw [askGroqFinish_input]
    exact h2
  · rw [askGroqFinish_uploadedImage]
    exact h3

theorem C8_clears_pending_witness :
    askGroqStart c8s = some c8s1 ∧
    (askGroqFinish (.fail "network") c8s1).input = "" ∧
    (askGroqFinish (.fail "network") c8s1).uploadedImage = none := by
  have h := C8_clears_pending c8s c8s1 (.fail "network") (by decide)
  exact ⟨by decide, h.2.2.1, h.2.2.2⟩

/-- Claim C9: speak always cancels whatever utterance is playing before
starting the new one, so right after a call the queue holds exactly the
newest utterance, and in every reachable state at most one utterance is
queued. -/
theorem C9_speak_cancels (s : ControllerState) (t : String)
    (hm : s.isMounted = true) (hs : s.synthSupported = true) :
    (speak t s).speaking = [t] ∧
    (∀ s₂, Reachable s₂ → s₂.speaking.length ≤ 1) := by
  constructor
  · unfold speak
    rw [if_neg (by simp [hm, hs])]
    simp [synthQueue, synthCancel]
  · intro s₂ h2
    exact (inv_reachable h2).2

theorem C9_speak_cancels_witness :
    c9s.speaking = ["previous answer"] ∧
    (speak "new answer" c9s).speaking = ["new answer"] :=
  ⟨rfl, (C9_speak_cancels c9s "new answer" rfl rfl).1⟩

/-- Claim C10: in every reachable state an error-flagged message has the
assistant role and no user message carries the flag; and the success path
of a resolving turn appends only an unflagged assistant message, so flagged
messages enter the transcript on the failure path alone. -/
theorem C10_error_flag (s : ControllerState) (h : Reachable s)
    (s₂ : ControllerState) (c : Option String) :
    (∀ m ∈ s.messages, (m.error = true → m.role = .assistant) ∧
      (m.role = .user → m.error = false)) ∧
    (∃ a : Message, (askGroqFinish (.ok c) s₂).messages
        = s₂.messages ++ [a] ∧ a.role = .assistant ∧ a.error = false) := by
  constructor
  · intro m hm
    exact (inv_reachable h).1 m hm
  · exact ⟨_, askGroqFinish_ok_messages c s₂, rfl, rfl⟩

theorem C10_error_flag_witness : (userMessage "hi").error = false := by
  have hr : Reachable c10s :=
    Reachable.step
      (Reachable.step
        (Reachable.step (Reachable.init true) (Step.mount (initState true)))
        (Step.typeInput { initState true with isMounted := true } "hi" rfl))
      (Step.button c10base (.ok (some "yo")))
  exact ((C10_error_flag c10s hr c10s (some "yo")).1
    (userMessage "hi") (by decide)).2 rfl

end QueryBot
